import Mathlib

/-
Verification of the content-research-pipeline core: a shallow embedding of
the orchestrator (core/pipeline.py), the scraper fan-out
(services/scraper.py), the job store (services/job_store.py), the cache
manager (utils/caching.py) and the pydantic data models (data/models.py),
together with theorems settling the stated properties of each component.

Conventions of the embedding:
- Wall-clock time is a natural-number tick counter; each call the Python
  code makes to datetime.now() / time.time() consumes one tick, so
  successive readings are strictly increasing.
- Python exceptions are values of PyExc; a function that can raise returns
  Except PyExc.
- External collaborators (network search, HTTP download, text extraction,
  the LLM analysis, chart and report rendering) are opaque; they appear as
  explicit environment records so that theorems quantify over all of their
  possible behaviours.
-/

namespace CRPipeline

/-- Python exception values, as far as the embedded code distinguishes them:
pydantic wraps ValueError raised in a validator into a ValidationError, while
an AttributeError raised in a validator escapes unwrapped. -/
inductive PyExc where
  | attributeError (msg : String)
  | validationError (msg : String)
  | runtimeError (msg : String)
deriving DecidableEq, Repr

/-- Message carried by an exception, as str(e) in Python. -/
def PyExc.message : PyExc → String
  | .attributeError m => m
  | .validationError m => m
  | .runtimeError m => m

/-- ContentType enumeration from data/models.py. -/
inductive ContentType where
  | text
  | image
  | video
  | pdf
  | error
deriving DecidableEq, Repr

/-- ScrapedContent model from data/models.py. The fields file_name and
scraped_at are omitted: no claim inspects them and they take part in no
validator. -/
structure ScrapedContent where
  type : ContentType
  url : String
  raw_text : String
  text_content : Option String
  error_message : Option String
deriving DecidableEq, Repr

/-- Construction of a ScrapedContent value as pydantic v1 executes it.
The validator validate_raw_text runs the test
`if not v and not cls.error_message:`; `not v` is true exactly when raw_text
is the empty string, and in that case Python evaluates `cls.error_message`,
an attribute lookup on the model class itself.  Pydantic v1 removes every
field name from the class namespace when it builds the model class
(ModelMetaclass excludes the fields from new_namespace), so this lookup
raises AttributeError, which pydantic does not convert to a validation
error (only ValueError, TypeError and AssertionError are caught).  Hence
every construction with empty raw_text raises, whatever the content type,
and every construction with non-empty raw_text skips the lookup and
succeeds. -/
def ScrapedContent.construct (type : ContentType) (url : String)
    (raw_text : String) (text_content : Option String)
    (error_message : Option String) : Except PyExc ScrapedContent :=
  if raw_text = "" then
    .error (.attributeError "type object ScrapedContent has no attribute error_message")
  else
    .ok { type := type, url := url, raw_text := raw_text,
          text_content := text_content, error_message := error_message }

/-- Python str.strip(): drop leading and trailing whitespace. -/
def pyStrip (s : String) : String :=
  String.mk (((s.data.dropWhile Char.isWhitespace).reverse.dropWhile
    Char.isWhitespace).reverse)

/-- External collaborators of ScraperService.scrape_url: the HTTP download
(_download_url, which catches RequestException and returns None on failure)
and trafilatura.extract (returning None when no text could be extracted). -/
structure ScrapeEnv where
  download : String → Option String
  extract : String → Option String

/-- ScraperService.scrape_url from services/scraper.py.  The body of the
try block builds either an error marker (raw_text = "") or a text result;
`except Exception as e` catches anything the body raises and builds an
error marker from str(e).  Both marker constructions go through
ScrapedContent.construct with empty raw_text, so the marker construction
itself raises and that exception escapes scrape_url.  The cache_result
decorator is transparent here: on a cold cache it calls straight through
and it does not catch exceptions of the wrapped function. -/
def scrape_url (env : ScrapeEnv) (url : String) : Except PyExc ScrapedContent :=
  let body : Except PyExc ScrapedContent :=
    match env.download url with
    | none => ScrapedContent.construct .error url "" none (some "Failed to download URL")
    | some html =>
      match env.extract html with
      | none => ScrapedContent.construct .error url "" none (some "No text content extracted")
      | some text =>
        if pyStrip text = "" then
          ScrapedContent.construct .error url "" none (some "No text content extracted")
        else
          ScrapedContent.construct .text url text (some text) none
  match body with
  | .ok c => .ok c
  | .error e => ScrapedContent.construct .error url "" none (some e.message)

/-- ScraperService.scrape_urls from services/scraper.py.
asyncio.gather(..., return_exceptions=True) yields, in task submission
order, either the ScrapedContent a task returned or the exception it
raised; the result loop then appends only the ScrapedContent values and
drops every exception (`if isinstance(result, Exception): ... continue`). -/
def scrape_urls (env : ScrapeEnv) (urls : List String) : List ScrapedContent :=
  (urls.map (scrape_url env)).filterMap (fun r =>
    match r with
    | .ok c => some c
    | .error _ => none)

/-- A scraping environment in which the download of one specific URL fails
and every other download succeeds with a fixed page whose extracted text
is non-empty. -/
def scrapeEnvOneBad : ScrapeEnv :=
  { download := fun url =>
      if url = "https://bad.example/b" then none else some "page html",
    extract := fun _ => some "Extracted page text" }

/-- Concurrency limit of the scraping fan-out:
asyncio.Semaphore(5) in ScraperService.scrape_urls. -/
def scrapeConcurrencyLimit : Nat := 5

/-- Execution phase of one unit of work of the fan-out.  A unit is running
exactly while scrape_with_semaphore holds the semaphore, which is the whole
time its awaited task executes. -/
inductive UnitPhase where
  | pending
  | running
  | done
deriving DecidableEq, Repr

/-- Number of units currently in flight. -/
def runningCount (units : List UnitPhase) : Nat :=
  units.countP (fun u => u == UnitPhase.running)

/-- Interleaving semantics of scrape_urls.  The scheduler state is the list
of unit phases.  A pending unit may start only when the semaphore has a
free slot, i.e. when fewer than C units hold it (Semaphore.acquire blocks
otherwise); a running unit may finish at any time, releasing its slot.
Nothing else constrains the order, matching asyncio's free interleaving. -/
inductive FanoutStep (C : Nat) : List UnitPhase → List UnitPhase → Prop where
  | start (units : List UnitPhase) (i : Nat)
      (hp : units.get? i = some UnitPhase.pending)
      (hc : runningCount units < C) :
      FanoutStep C units (units.set i UnitPhase.running)
  | finish (units : List UnitPhase) (i : Nat)
      (hr : units.get? i = some UnitPhase.running) :
      FanoutStep C units (units.set i UnitPhase.done)

/-- States reachable by the fan-out on a batch of n units: initially all
units are pending, then any number of steps. -/
inductive FanoutReach (C n : Nat) : List UnitPhase → Prop where
  | init : FanoutReach C n (List.replicate n UnitPhase.pending)
  | step (st st' : List UnitPhase) :
      FanoutReach C n st → FanoutStep C st st' → FanoutReach C n st'

/-- Job record payload, the job_data dictionary of JobStoreService.  The
store only ever inspects the "status" entry (list_jobs, get_job_count);
everything else rides along opaquely, here as one field.  create_job and
update_job serialize the dictionary with json.dumps and get_job parses it
back with json.loads; for the JSON-serializable dictionaries the service
stores, that round trip is the identity and is modelled as such. -/
structure JobData where
  status : Option String
  rest : String
deriving DecidableEq, Repr

/-- State of the Redis database as JobStoreService uses it: a string
keyspace holding one JSON document per job under key "job:<id>", and the
sorted set "jobs:list" holding (job id, creation-timestamp score) pairs.
The sorted-set list is kept ordered by descending score, the order in
which ZREVRANGE enumerates it. -/
structure RedisState where
  kv : List (String × JobData)
  zset : List (String × Nat)
deriving DecidableEq, Repr

/-- Redis SET on the string keyspace: replace or insert. -/
def kvSet (kv : List (String × JobData)) (key : String) (v : JobData) :
    List (String × JobData) :=
  (key, v) :: kv.filter (fun p => p.1 ≠ key)

/-- Redis GET on the string keyspace. -/
def kvGet (kv : List (String × JobData)) (key : String) : Option JobData :=
  (kv.find? (fun p => p.1 = key)).map Prod.snd

/-- Redis DEL on the string keyspace. -/
def kvDel (kv : List (String × JobData)) (key : String) :
    List (String × JobData) :=
  kv.filter (fun p => p.1 ≠ key)

/-- Insertion into a descending-score list: the new entry goes in front of
the first entry with a strictly smaller score. -/
def insertScoreDesc (member : String) (score : Nat) :
    List (String × Nat) → List (String × Nat)
  | [] => [(member, score)]
  | (m, sc) :: rest =>
    if sc < score then (member, score) :: (m, sc) :: rest
    else (m, sc) :: insertScoreDesc member score rest

/-- Redis ZADD: remove any existing entry for the member, then insert it at
its score position, keeping the list in descending-score order. -/
def zaddDesc (zset : List (String × Nat)) (member : String) (score : Nat) :
    List (String × Nat) :=
  insertScoreDesc member score (zset.filter (fun p => p.1 ≠ member))

/-- Descending-score order between index entries: the later entry has the
smaller (older) creation timestamp. -/
def scoreDesc (a b : String × Nat) : Prop := b.2 ≤ a.2

/-- Redis ZREM. -/
def zrem (zset : List (String × Nat)) (member : String) :
    List (String × Nat) :=
  zset.filter (fun p => p.1 ≠ member)

/-- Redis ZREVRANGE 0 -1: all members, highest score first. -/
def zrevrangeAll (zset : List (String × Nat)) : List String :=
  zset.map Prod.fst

/-- Key layout of JobStoreService._get_job_key. -/
def jobKey (jobId : String) : String := "job:" ++ jobId

/-- The redis_client attribute of JobStoreService: some state when the
connection was established, none when _initialize_client hit a connection
error and fell back.  Despite the "Falling back to in-memory job storage"
log line, no in-memory storage exists: every operation begins with
`if not self.redis_client: return <failure default>`. -/
abbrev JobClient := Option RedisState

/-- JobStoreService.create_job: store the serialized record, then ZADD the
job id with the current timestamp as score.  Returns the new store state
and the boolean result. -/
def create_job (client : JobClient) (now : Nat) (jobId : String)
    (jobData : JobData) : JobClient × Bool :=
  match client with
  | none => (none, false)
  | some r =>
    let r1 : RedisState := { r with kv := kvSet r.kv (jobKey jobId) jobData }
    let r2 : RedisState := { r1 with zset := zaddDesc r1.zset jobId now }
    (some r2, true)

/-- JobStoreService.get_job. -/
def get_job (client : JobClient) (jobId : String) : Option JobData :=
  match client with
  | none => none
  | some r => kvGet r.kv (jobKey jobId)

/-- JobStoreService.update_job: read-modify-write; the dictionary merge
job_data.update(updates) appears as an arbitrary record transformer. -/
def update_job (client : JobClient) (jobId : String)
    (updates : JobData → JobData) : JobClient × Bool :=
  match client with
  | none => (none, false)
  | some r =>
    match kvGet r.kv (jobKey jobId) with
    | none => (some r, false)
    | some jd =>
      (some { r with kv := kvSet r.kv (jobKey jobId) (updates jd) }, true)

/-- JobStoreService.delete_job: DEL the record, ZREM the index entry. -/
def delete_job (client : JobClient) (jobId : String) : JobClient × Bool :=
  match client with
  | none => (none, false)
  | some r =>
    (some { kv := kvDel r.kv (jobKey jobId), zset := zrem r.zset jobId }, true)

/-- Truthiness of the optional status filter in Python: `if status and ...`
is false for None and for the empty string. -/
def statusTruthy : Option String → Bool
  | none => false
  | some s => s ≠ ""

/-- One iteration of the list_jobs loop: resolve a job id to its record,
skip it when the record is gone, skip it when a truthy status filter does
not match. -/
def resolveJob (r : RedisState) (statusFilter : Option String)
    (jobId : String) : Option JobData :=
  match kvGet r.kv (jobKey jobId) with
  | none => none
  | some jd =>
    if statusTruthy statusFilter ∧ jd.status ≠ statusFilter then none
    else some jd

/-- JobStoreService.list_jobs: ZREVRANGE the whole index (most recent
first), resolve and filter each id, then truncate with jobs[:limit].  Any
exception inside the body is caught and turned into []; the
client-unavailable guard returns [] as well. -/
def list_jobs (client : JobClient) (limit : Nat)
    (statusFilter : Option String) : List JobData :=
  match client with
  | none => []
  | some r =>
    ((zrevrangeAll r.zset).filterMap (resolveJob r statusFilter)).take limit

/-- JobStoreService.get_job_count. -/
def get_job_count (client : JobClient) (statusFilter : Option String) : Nat :=
  match client with
  | none => 0
  | some r =>
    match statusFilter with
    | none => r.zset.length
    | some st =>
      if st = "" then r.zset.length
      else ((zrevrangeAll r.zset).filterMap (resolveJob r (some st))).length

/-- JobStoreService.job_exists: EXISTS on the record key. -/
def job_exists (client : JobClient) (jobId : String) : Bool :=
  match client with
  | none => false
  | some r => (kvGet r.kv (jobKey jobId)).isSome

/-- A sample job record used by concrete evaluations. -/
def sampleJob : JobData := { status := some "pending", rest := "query: test" }

/-- The in-memory fallback cache of utils/caching.py: the module-global
_cache dictionary, mapping a key to the pair (pickled value, insertion
time).  Values are kept as strings, standing for the pickled payload. -/
abbrev MemCache := List (String × String × Nat)

/-- Dictionary lookup in the fallback cache. -/
def memLookup (c : MemCache) (key : String) : Option (String × Nat) :=
  (c.find? (fun p => p.1 = key)).map Prod.snd

/-- Dictionary assignment self.cache[key] = (value, time.time()). -/
def memAssign (c : MemCache) (key value : String) (now : Nat) : MemCache :=
  (key, value, now) :: c.filter (fun p => p.1 ≠ key)

/-- Dictionary deletion del self.cache[key]. -/
def memDel (c : MemCache) (key : String) : MemCache :=
  c.filter (fun p => p.1 ≠ key)

/-- CacheManager.set in fallback mode (redis_client is None, so the Redis
branch is skipped).  The expire_after argument is normalized against the
settings default and then used only by the Redis branch; the fallback
branch stores just (value, time.time()) and the per-call ttl is discarded. -/
def cacheManagerSet (c : MemCache) (key value : String)
    (expireAfter : Option Nat) (now : Nat) : MemCache :=
  let _ttl := expireAfter.getD 3600
  memAssign c key value now

/-- CacheManager.get in fallback mode.  Freshness is judged against the
global settings.cache_expire_seconds (passed here as cacheExpireSeconds,
default 3600), not against any per-entry ttl: none was stored.  An entry
that fails the freshness test is deleted on the spot (lazy eviction) and
the call returns None.  Returns the value read and the cache after the
call. -/
def cacheManagerGet (c : MemCache) (key : String)
    (now cacheExpireSeconds : Nat) : Option String × MemCache :=
  match memLookup c key with
  | some (v, ts) =>
    if now - ts < cacheExpireSeconds then (some v, c)
    else (none, memDel c key)
  | none => (none, c)

/-- SearchResult model from data/models.py; the credibility score takes no
part in any claim and is omitted. -/
structure SearchResult where
  title : String
  snippet : String
  link : String
  source : String
deriving DecidableEq, Repr

/-- ImageResult model, reduced to the fields the orchestrator moves. -/
structure ImageResult where
  title : String
  link : String
deriving DecidableEq, Repr

/-- VideoResult model, reduced to the fields the orchestrator moves. -/
structure VideoResult where
  title : String
  link : String
deriving DecidableEq, Repr

/-- AnalysisResult model, reduced to identifying fields; the orchestrator
treats it as opaque. -/
structure AnalysisResult where
  query : String
  summary : String
deriving DecidableEq, Repr

/-- VisualizationData model from data/models.py.  Graph node and edge
dictionaries are opaque, and float values stand as naturals; the
orchestrator never looks inside. -/
structure VisualizationData where
  nodes : List String
  edges : List String
  timeline_dates : List String
  timeline_events : List String
  word_cloud : Option String
  treemap_labels : List String
  treemap_parents : List String
  treemap_values : List Nat
deriving DecidableEq, Repr

/-- VisualizationData() with every field at its default, as constructed by
the except branch of ContentResearchPipeline.run. -/
def VisualizationData.empty : VisualizationData :=
  { nodes := [], edges := [], timeline_dates := [], timeline_events := [],
    word_cloud := none, treemap_labels := [], treemap_parents := [],
    treemap_values := [] }

/-- PipelineState model from data/models.py. -/
structure PipelineState where
  query : String
  search_results : List SearchResult
  images : List ImageResult
  videos : List VideoResult
  scraped_content : List ScrapedContent
  analysis : Option AnalysisResult
  status : String
  created_at : Nat
  updated_at : Option Nat
deriving Repr

/-- PipelineState(query=query): every sequence field defaults to empty,
status to "initialized", created_at to the current time, updated_at to
None. -/
def PipelineState.start (query : String) (now : Nat) : PipelineState :=
  { query := query, search_results := [], images := [], videos := [],
    scraped_content := [], analysis := none, status := "initialized",
    created_at := now, updated_at := none }

/-- PipelineState.update_status: assign the new status and stamp updated_at
with the current time. -/
def PipelineState.update_status (s : PipelineState) (newStatus : String)
    (now : Nat) : PipelineState :=
  { s with status := newStatus, updated_at := some now }

/-- PipelineResult model from data/models.py. -/
structure PipelineResult where
  state : PipelineState
  visualization : VisualizationData
  html_report : Option String
  processing_time : Option Nat

/-- The six phase bodies ContentResearchPipeline.run sequences, abstracted
over: each is a method that mutates the shared state and may raise.  A
phase returns the state as mutated up to the point of return or raise,
plus the exception if one escaped.  The visualization and report phases
additionally produce a value on success. -/
structure Phases where
  searchPhase : PipelineState → PipelineState × Option PyExc
  scrapingPhase : PipelineState → PipelineState × Option PyExc
  storagePhase : PipelineState → PipelineState × Option PyExc
  analysisPhase : PipelineState → PipelineState × Option PyExc
  vizPhase : PipelineState → PipelineState × Except PyExc VisualizationData
  reportPhase : PipelineState → VisualizationData →
    PipelineState × Except PyExc (Option String)

/-- Running context of one pipeline run: the shared state, the trace of
update_status calls as (new status, timestamp) pairs, and the clock tick
counter. -/
structure RunCtx where
  state : PipelineState
  trace : List (String × Nat)
  clock : Nat

/-- state.update_status(newStatus) inside run: consumes one clock tick and
records the call in the trace. -/
def RunCtx.updStatus (ctx : RunCtx) (newStatus : String) : RunCtx :=
  { state := ctx.state.update_status newStatus ctx.clock,
    trace := ctx.trace ++ [(newStatus, ctx.clock)],
    clock := ctx.clock + 1 }

/-- Await one state-mutating phase: on success continue with the mutated
state, on raise carry the mutated-so-far state out with the exception. -/
def phaseStep (f : PipelineState → PipelineState × Option PyExc)
    (ctx : RunCtx) : Except (PyExc × RunCtx) RunCtx :=
  match f ctx.state with
  | (s, none) => .ok { ctx with state := s }
  | (s, some e) => .error (e, { ctx with state := s })

/-- The try block of ContentResearchPipeline.run: search, then
update_status("scraping") and scrape, then store, analyze, visualize and
generate the report, each status update preceding its phase.  An exception
escaping any phase aborts the block and carries the state mutated so far. -/
def runTry (ph : Phases) (ctx0 : RunCtx) :
    Except (PyExc × RunCtx) (RunCtx × VisualizationData × Option String) :=
  match phaseStep ph.searchPhase ctx0 with
  | .error err => .error err
  | .ok c1 =>
    match phaseStep ph.scrapingPhase (c1.updStatus "scraping") with
    | .error err => .error err
    | .ok c2 =>
      match phaseStep ph.storagePhase (c2.updStatus "storing") with
      | .error err => .error err
      | .ok c3 =>
        match phaseStep ph.analysisPhase (c3.updStatus "analyzing") with
        | .error err => .error err
        | .ok c4 =>
          let c5 := c4.updStatus "visualizing"
          match ph.vizPhase c5.state with
          | (s, .error e) => .error (e, { c5 with state := s })
          | (s, .ok viz) =>
            let c6 := (RunCtx.mk s c5.trace c5.clock).updStatus "generating_report"
            match ph.reportPhase c6.state viz with
            | (s2, .error e) => .error (e, { c6 with state := s2 })
            | (s2, .ok rpt) => .ok ({ c6 with state := s2 }, viz, rpt)

/-- Context at the top of run, just before the try block: start_time read
at tick t0, the state constructed with created_at at tick t0 + 1, then
update_status("searching") at tick t0 + 2. -/
def initialCtx (query : String) (t0 : Nat) : RunCtx :=
  (RunCtx.mk (PipelineState.start query (t0 + 1)) [] (t0 + 2)).updStatus "searching"

/-- ContentResearchPipeline.run.  The single top-level except branch sets
status to "failed" and still returns a PipelineResult built from the state
mutated so far, an empty VisualizationData, no report and the elapsed
time; the success branch sets status to "completed" and returns the phase
outputs.  Returns the result together with the trace of update_status
calls. -/
def run (ph : Phases) (query : String) (t0 : Nat) :
    PipelineResult × List (String × Nat) :=
  match runTry ph (initialCtx query t0) with
  | .ok (ctxS, viz, rpt) =>
    let ctxC := ctxS.updStatus "completed"
    ({ state := ctxC.state, visualization := viz, html_report := rpt,
       processing_time := some (ctxC.clock - t0) }, ctxC.trace)
  | .error (_, ctxF) =>
    let ctxE := ctxF.updStatus "failed"
    ({ state := ctxE.state, visualization := VisualizationData.empty,
       html_report := none, processing_time := some (ctxE.clock - t0) },
     ctxE.trace)

/-- External search collaborators of _search_phase: the primary web search
and the three secondary searches, each an async call that either returns
its result list or raises. -/
structure SearchEnv where
  web : Except PyExc (List SearchResult)
  news : Except PyExc (List SearchResult)
  images : Except PyExc (List ImageResult)
  videos : Except PyExc (List VideoResult)

/-- Outcome of one secondary search task, tagged by which search produced
it.  asyncio.gather returns results positionally in task submission order,
never in completion order. -/
inductive SecondaryResult where
  | news (rs : List SearchResult)
  | images (rs : List ImageResult)
  | videos (rs : List VideoResult)
deriving DecidableEq, Repr

/-- The tasks list of _search_phase, in the order it is built: news when
include_news, then images when include_images, then videos when
include_videos.  asyncio.gather(..., return_exceptions=True) yields one
entry per task in this same order, holding either its value or the
exception it raised. -/
def secondaryTasks (env : SearchEnv)
    (includeImages includeVideos includeNews : Bool) :
    List (Except PyExc SecondaryResult) :=
  (if includeNews then [env.news.map SecondaryResult.news] else [])
  ++ (if includeImages then [env.images.map SecondaryResult.images] else [])
  ++ (if includeVideos then [env.videos.map SecondaryResult.videos] else [])

/-- Reading results[idx] as the news list: an exception entry becomes [],
per `results[idx] if not isinstance(results[idx], Exception) else []`.  An
entry of a different tag also yields [] so that the reading is total; the
search-phase theorem shows the index bookkeeping never hits that case. -/
def readNews : Option (Except PyExc SecondaryResult) → List SearchResult
  | some (.ok (.news rs)) => rs
  | _ => []

/-- Reading results[idx] as the images list. -/
def readImages : Option (Except PyExc SecondaryResult) → List ImageResult
  | some (.ok (.images rs)) => rs
  | _ => []

/-- Reading results[idx] as the videos list. -/
def readVideos : Option (Except PyExc SecondaryResult) → List VideoResult
  | some (.ok (.videos rs)) => rs
  | _ => []

/-- ContentResearchPipeline._search_phase.  The primary web search is
awaited outside the gather: if it raises the phase raises.  The secondary
searches are gathered with return_exceptions=True and assigned by the idx
walk of the source: news results extend state.search_results, images and
videos are assigned to their own fields, a raised sub-operation
contributing [] instead. -/
def search_phase (env : SearchEnv)
    (includeImages includeVideos includeNews : Bool)
    (s : PipelineState) : Except PyExc PipelineState :=
  match env.web with
  | .error e => .error e
  | .ok webResults =>
    let s1 := { s with search_results := webResults }
    let results := secondaryTasks env includeImages includeVideos includeNews
    let newsIdx := 0
    let imagesIdx := newsIdx + (if includeNews then 1 else 0)
    let videosIdx := imagesIdx + (if includeImages then 1 else 0)
    let s2 := if includeNews then
        { s1 with search_results := s1.search_results ++ readNews (results.get? newsIdx) }
      else s1
    let s3 := if includeImages then
        { s2 with images := readImages (results.get? imagesIdx) }
      else s2
    let s4 := if includeVideos then
        { s3 with videos := readVideos (results.get? videosIdx) }
      else s3
    .ok s4

/-- Unwrap a settled sub-operation outcome to its list, [] when it raised. -/
def settledOr {α : Type} (r : Except PyExc (List α)) : List α :=
  match r with
  | .ok l => l
  | .error _ => []

/-- settings.max_search_results default from config/settings.py. -/
def maxSearchResultsDefault : Nat := 5

/-- The URL list _scraping_phase submits to the scraper: the link of every
search result in order, truncated to
min(len(urls), settings.max_search_results * 2) entries. -/
def urlsToScrape (maxSearchResults : Nat) (s : PipelineState) : List String :=
  let urls := s.search_results.map (fun r => r.link)
  let maxUrls := min urls.length (maxSearchResults * 2)
  urls.take maxUrls

/-- ContentResearchPipeline._scraping_phase: collect the URLs of the search
results; return unchanged when there are none; otherwise scrape the
truncated list and store the outcome in state.scraped_content.  The
scraper is the bounded fan-out, abstracted here as a function of the URL
list. -/
def scraping_phase (maxSearchResults : Nat)
    (scrape : List String → List ScrapedContent)
    (s : PipelineState) : PipelineState :=
  let urls := s.search_results.map (fun r => r.link)
  if urls.isEmpty then s
  else { s with scraped_content := scrape (urlsToScrape maxSearchResults s) }

/-- Position of a status in the forward order of the pipeline state
machine, §3 of the specification and the sequencing of run. -/
def statusIdx : String → Option Nat
  | "initialized" => some 0
  | "searching" => some 1
  | "scraping" => some 2
  | "storing" => some 3
  | "analyzing" => some 4
  | "visualizing" => some 5
  | "generating_report" => some 6
  | "completed" => some 7
  | _ => none

/-- One admissible status transition: strictly forward through the order,
or a jump to "failed" from any state that is not already "failed". -/
def statusForward (a b : String) : Bool :=
  (match statusIdx a, statusIdx b with
   | some i, some j => i < j
   | _, _ => false)
  || (b == "failed" && !(a == "failed"))

/-- A phase set in which every phase succeeds without mutating anything,
the visualization phase yields a fixed value and the report phase a fixed
report. -/
def phasesAllOk : Phases :=
  { searchPhase := fun s => (s, none),
    scrapingPhase := fun s => (s, none),
    storagePhase := fun s => (s, none),
    analysisPhase := fun s => (s, none),
    vizPhase := fun s => (s, .ok VisualizationData.empty),
    reportPhase := fun s _ => (s, .ok (some "<html>report</html>")) }

/-- The phase set of phasesAllOk with the search collaborator stubbed to
raise after recording one search result, the configuration of the
orchestrator failure test. -/
def phasesSearchRaises : Phases :=
  { phasesAllOk with
    searchPhase := fun s =>
      ({ s with search_results := [⟨"t", "sn", "https://kept.example/a", "kept.example"⟩] },
       some (.runtimeError "Search failed")) }

/-- A search environment whose news search raises while the web, images
and videos searches succeed with distinct non-empty payloads. -/
def searchEnvNewsRaises : SearchEnv :=
  { web := .ok [⟨"w", "ws", "https://w.example/1", "w.example"⟩],
    news := .error (.runtimeError "news search timed out"),
    images := .ok [⟨"img", "https://i.example/1.png"⟩],
    videos := .ok [⟨"vid", "https://v.example/1"⟩] }

/-- The statuses run sets between "searching" and the terminal one, in
sequencing order. -/
def midStatuses : List String :=
  ["scraping", "storing", "analyzing", "visualizing", "generating_report"]

/-- A Redis state holding one live job and one index entry whose record was
deleted out from under it. -/
def redisStateWithDangling : RedisState :=
  { kv := [("job:live", sampleJob)],
    zset := [("dead", 20), ("live", 10)] }

/-- C9: the claim fails on the code.  data/models.py intends empty raw_text
to be legal exactly for error markers, but validate_raw_text consults
`cls.error_message`, an attribute pydantic v1 strips from the model class,
so every construction with empty raw_text raises AttributeError: the
scraper's own error marker (type error, raw_text "", error_message set)
cannot be built, and a non-error value with empty raw_text is indeed
rejected but by an accidental AttributeError, not by the validator's
ValueError. -/
theorem scraped_content_empty_raw_text_always_raises :
    ScrapedContent.construct ContentType.error "https://x.example/" "" none
        (some "Failed to download URL")
      = Except.error (PyExc.attributeError
          "type object ScrapedContent has no attribute error_message")
    ∧ (∀ ty url tc em, ∃ msg, ScrapedContent.construct ty url "" tc em
        = Except.error (PyExc.attributeError msg))
    ∧ ScrapedContent.construct ContentType.text "https://x.example/"
        "Some body text" (some "Some body text") none
      = Except.ok ⟨ContentType.text, "https://x.example/", "Some body text",
          some "Some body text", none⟩ :=
  ⟨rfl, fun _ _ _ _ => ⟨_, rfl⟩, rfl⟩

/-- C2: the claim fails on the code.  In a batch of two URLs of which the
second fails to download, the error marker scrape_url tries to build
raises (see validate_raw_text), the exception reaches gather, and the
result loop of scrape_urls drops it: the returned list has length 1, not
2, and holds no failure marker at all. -/
theorem scrape_urls_drops_failed_units :
    scrape_urls scrapeEnvOneBad ["https://ok.example/a", "https://bad.example/b"]
      = [⟨ContentType.text, "https://ok.example/a", "Extracted page text",
          some "Extracted page text", none⟩] := by
  rfl

/-- C3 counterexample: with the networked backend unreachable at
construction (redis_client = None), create_job reports failure and the
job it was given cannot be read back: no in-process fallback store
exists. -/
theorem job_store_no_fallback_counterexample :
    (create_job none 0 "job-1" sampleJob).2 = false
    ∧ get_job (create_job none 0 "job-1" sampleJob).1 "job-1" = none :=
  ⟨rfl, rfl⟩

/-- C3 amended: when the service is constructed with the networked backend
unreachable, every operation degrades to returning its failure default
without raising — create_job False, get_job None, update_job False,
delete_job False, list_jobs [], get_job_count 0, job_exists False — and no
operation stores or retrieves anything. -/
theorem job_store_unreachable_returns_failure_defaults (jobId : String)
    (jd : JobData) (now limit : Nat) (stf : Option String)
    (upd : JobData → JobData) :
    create_job none now jobId jd = (none, false)
    ∧ get_job none jobId = none
    ∧ update_job none jobId upd = (none, false)
    ∧ delete_job none jobId = (none, false)
    ∧ list_jobs none limit stf = []
    ∧ get_job_count none stf = 0
    ∧ job_exists none jobId = false :=
  ⟨rfl, rfl, rfl, rfl, rfl, rfl, rfl⟩

/-- C4 counterexample: in fallback mode, set with a per-call ttl of 10 at
time 0, then get at time 10: the ttl has elapsed (10 - 0 >= 10) yet get
still returns the value, because the fallback path never stored the
per-call ttl and judges freshness against settings.cache_expire_seconds
(default 3600). -/
theorem cache_per_call_ttl_counterexample :
    10 ≤ 10 - 0
    ∧ (cacheManagerGet (cacheManagerSet [] "k" "v" (some 10) 0) "k" 10 3600).1
        = some "v" :=
  ⟨by decide, rfl⟩

/-- Looking up a key just assigned finds the new pair. -/
theorem memLookup_memAssign_self (c : MemCache) (k v : String) (t : Nat) :
    memLookup (memAssign c k v t) k = some (v, t) := by
  simp [memLookup, memAssign]

/-- Looking up a key just deleted finds nothing. -/
theorem memLookup_memDel_self (c : MemCache) (k : String) :
    memLookup (memDel c k) k = none := by
  simp [memLookup, memDel]

/-- C4 amended: in fallback mode, set(k, v, ttl) stores (v, now) and
discards the per-call ttl; an immediate get returns v (whenever the global
expiry window is positive), and once now - insertion_time >=
settings.cache_expire_seconds — the global default, not the ttl passed to
set — get returns absent and lazily evicts the entry. -/
theorem cache_fallback_uses_global_expiry (c : MemCache) (key value : String)
    (ttl : Option Nat) (t0 t1 ces : Nat) :
    (0 < ces →
      (cacheManagerGet (cacheManagerSet c key value ttl t0) key t0 ces).1
        = some value)
    ∧ (ces ≤ t1 - t0 →
      (cacheManagerGet (cacheManagerSet c key value ttl t0) key t1 ces).1 = none
      ∧ memLookup
          (cacheManagerGet (cacheManagerSet c key value ttl t0) key t1 ces).2 key
        = none) := by
  constructor
  · intro h
    simp [cacheManagerGet, cacheManagerSet, memLookup_memAssign_self,
      Nat.sub_self, h]
  · intro h
    have hlt : ¬ (t1 - t0 < ces) := by omega
    simp [cacheManagerGet, cacheManagerSet, memLookup_memAssign_self, hlt,
      memLookup_memDel_self]

/-- Witness for C4 amended at the settings default: value "v" set at time 0
with per-call ttl 10 is still readable immediately and gone at time 3600. -/
theorem cache_fallback_uses_global_expiry_witness :
    (cacheManagerGet (cacheManagerSet [] "k" "v" (some 10) 0) "k" 0 3600).1
      = some "v"
    ∧ (cacheManagerGet (cacheManagerSet [] "k" "v" (some 10) 0) "k" 3600 3600).1
      = none
    ∧ memLookup
        (cacheManagerGet (cacheManagerSet [] "k" "v" (some 10) 0) "k" 3600 3600).2
        "k" = none := by
  have h1 := (cache_fallback_uses_global_expiry [] "k" "v" (some 10) 0 3600 3600).1
  have h2 := (cache_fallback_uses_global_expiry [] "k" "v" (some 10) 0 3600 3600).2
  obtain ⟨h2a, h2b⟩ := h2 (by decide)
  exact ⟨h1 (by decide), h2a, h2b⟩

/-- A batch that has not started has nothing in flight. -/
theorem runningCount_replicate_pending (n : Nat) :
    runningCount (List.replicate n UnitPhase.pending) = 0 := by
  induction n with
  | zero => rfl
  | succ k ih => simp [runningCount, List.replicate_succ, List.countP_cons]
      at ih ⊢

/-- Starting a pending unit raises the in-flight count by one. -/
theorem runningCount_set_running (units : List UnitPhase) (i : Nat)
    (h : units.get? i = some UnitPhase.pending) :
    runningCount (units.set i UnitPhase.running) = runningCount units + 1 := by
  induction units generalizing i with
  | nil => simp at h
  | cons a l ih =>
    cases i with
    | zero =>
      simp only [List.get?_cons_zero, Option.some.injEq] at h
      subst h
      simp [runningCount, List.countP_cons]
    | succ j =>
      simp only [List.get?_cons_succ] at h
      have := ih j h
      simp only [List.set_cons_succ, runningCount, List.countP_cons] at *
      omega

/-- Finishing a running unit lowers the in-flight count by one. -/
theorem runningCount_set_done (units : List UnitPhase) (i : Nat)
    (h : units.get? i = some UnitPhase.running) :
    runningCount (units.set i UnitPhase.done) + 1 = runningCount units := by
  induction units generalizing i with
  | nil => simp at h
  | cons a l ih =>
    cases i with
    | zero =>
      simp only [List.get?_cons_zero, Option.some.injEq] at h
      subst h
      simp [runningCount, List.countP_cons]
    | succ j =>
      simp only [List.get?_cons_succ] at h
      have := ih j h
      simp only [List.set_cons_succ, runningCount, List.countP_cons] at *
      omega

/-- C5: in every state the scrape_urls fan-out can reach, whatever the
batch size n, at most 5 units are in flight: a pending unit can only start
while the semaphore of ScraperService.scrape_urls has a free slot. -/
theorem scrape_fanout_concurrency_bound (n : Nat) (st : List UnitPhase)
    (h : FanoutReach scrapeConcurrencyLimit n st) :
    runningCount st ≤ 5 := by
  induction h with
  | init => simp [runningCount_replicate_pending]
  | step st st' hreach hstep ih =>
    cases hstep with
    | start i hp hc =>
      have hset := runningCount_set_running st i hp
      simp only [scrapeConcurrencyLimit] at hc
      omega
    | finish i hr =>
      have hset := runningCount_set_done st i hr
      omega

/-- Witness for C5: the state of a two-unit batch with the first unit
started is reachable and within the bound. -/
theorem scrape_fanout_concurrency_bound_witness :
    FanoutReach scrapeConcurrencyLimit 2 [UnitPhase.running, UnitPhase.pending]
    ∧ runningCount [UnitPhase.running, UnitPhase.pending] ≤ 5 := by
  have hstep : FanoutStep scrapeConcurrencyLimit
      (List.replicate 2 UnitPhase.pending)
      ((List.replicate 2 UnitPhase.pending).set 0 UnitPhase.running) :=
    FanoutStep.start (List.replicate 2 UnitPhase.pending) 0 rfl (by decide)
  have hreach : FanoutReach scrapeConcurrencyLimit 2
      [UnitPhase.running, UnitPhase.pending] :=
    FanoutReach.step (List.replicate 2 UnitPhase.pending)
      ((List.replicate 2 UnitPhase.pending).set 0 UnitPhase.running)
      FanoutReach.init hstep
  exact ⟨hreach, scrape_fanout_concurrency_bound 2 _ hreach⟩

/-- Membership after descending insertion: exactly the new entry plus the
old ones. -/
theorem mem_insertScoreDesc (member : String) (score : Nat)
    (l : List (String × Nat)) (x : String × Nat) :
    x ∈ insertScoreDesc member score l ↔ x = (member, score) ∨ x ∈ l := by
  induction l with
  | nil => simp [insertScoreDesc]
  | cons a rest ih =>
    rcases a with ⟨m, sc⟩
    by_cases hlt : sc < score
    · simp [insertScoreDesc, hlt]
    · simp [insertScoreDesc, hlt, ih]
      tauto

/-- Descending insertion keeps the index sorted by descending score. -/
theorem pairwise_insertScoreDesc (member : String) (score : Nat)
    (l : List (String × Nat)) (h : l.Pairwise scoreDesc) :
    (insertScoreDesc member score l).Pairwise scoreDesc := by
  induction l with
  | nil => simp [insertScoreDesc, scoreDesc]
  | cons a rest ih =>
    rcases a with ⟨m, sc⟩
    rcases List.pairwise_cons.mp h with ⟨hall, hrest⟩
    by_cases hlt : sc < score
    · simp only [insertScoreDesc, if_pos hlt]
      refine List.pairwise_cons.mpr ⟨?_, h⟩
      intro x hx
      rcases List.mem_cons.mp hx with hx | hx
      · subst hx
        simp [scoreDesc]
        omega
      · have := hall x hx
        simp [scoreDesc] at this ⊢
        omega
    · simp only [insertScoreDesc, if_neg hlt]
      refine List.pairwise_cons.mpr ⟨?_, ih hrest⟩
      intro x hx
      rcases (mem_insertScoreDesc member score rest x).mp hx with hx | hx
      · subst hx
        simp [scoreDesc]
        omega
      · exact hall x hx

/-- Dropping index entries that resolve to nothing does not change the
resolved listing. -/
theorem filterMap_resolve_zrem (r : RedisState) (stf : Option String)
    (zs : List (String × Nat)) (jobId : String)
    (h : resolveJob r stf jobId = none) :
    (zrevrangeAll (zrem zs jobId)).filterMap (resolveJob r stf)
      = (zrevrangeAll zs).filterMap (resolveJob r stf) := by
  induction zs with
  | nil => rfl
  | cons a rest ih =>
    by_cases ha : a.1 = jobId
    · simp [zrem, zrevrangeAll, List.filterMap_cons, ha, h] at *
      simpa [zrem, zrevrangeAll] using ih
    · simp only [zrem, zrevrangeAll, List.filter_cons, List.map_cons,
        List.filterMap_cons] at *
      simp [ha] at *
      rcases hres : resolveJob r stf a.1 with _ | jd <;>
        simp [zrem, zrevrangeAll, List.filterMap_cons, hres, ih]

/-- C7: list_jobs returns at most limit records; every returned record is
the live record of some id in the index and passes a truthy status filter;
an index entry whose record is missing is skipped, so removing it from the
index changes nothing; with the store unavailable the call returns [] and
never raises; and the index create_job maintains through ZADD stays
ordered by descending creation timestamp, the order ZREVRANGE reads. -/
theorem list_jobs_orders_filters_truncates (r : RedisState) (limit : Nat)
    (stf : Option String) :
    (list_jobs (some r) limit stf).length ≤ limit
    ∧ (∀ jd ∈ list_jobs (some r) limit stf,
        ∃ jobId ∈ zrevrangeAll r.zset,
          kvGet r.kv (jobKey jobId) = some jd
          ∧ (statusTruthy stf = true → jd.status = stf))
    ∧ (∀ jobId, resolveJob r stf jobId = none →
        (RedisState.mk r.kv (zrem r.zset jobId) |> fun rZ =>
          list_jobs (some rZ) limit stf = list_jobs (some r) limit stf))
    ∧ list_jobs none limit stf = []
    ∧ (∀ member score, r.zset.Pairwise scoreDesc →
        (zaddDesc r.zset member score).Pairwise scoreDesc) := by
  refine ⟨?_, ?_, ?_, rfl, ?_⟩
  · simp only [list_jobs]
    rw [List.length_take]
    omega
  · intro jd hjd
    have hjd2 : jd ∈ (zrevrangeAll r.zset).filterMap (resolveJob r stf) :=
      List.take_subset _ _ hjd
    rcases List.mem_filterMap.mp hjd2 with ⟨jobId, hmem, hres⟩
    refine ⟨jobId, hmem, ?_⟩
    simp only [resolveJob] at hres
    rcases hget : kvGet r.kv (jobKey jobId) with _ | jd0
    · rw [hget] at hres
      simp at hres
    · rw [hget] at hres
      by_cases hcond : statusTruthy stf = true ∧ jd0.status ≠ stf
      · simp [hcond] at hres
      · simp [hcond] at hres
        subst hres
        refine ⟨rfl, ?_⟩
        intro htr
        by_contra hne
        exact hcond ⟨htr, hne⟩
  · intro jobId h
    simp only [list_jobs]
    exact congrArg (List.take limit) (filterMap_resolve_zrem r stf r.zset jobId h)
  · intro member score h
    exact pairwise_insertScoreDesc member score _ (List.Pairwise.filter _ h)

/-- Witness for C7 on a concrete store: one live job, one dangling index
entry, limit 1. -/
theorem list_jobs_orders_filters_truncates_witness :
    (list_jobs (some redisStateWithDangling) 1 none).length ≤ 1
    ∧ (∃ jobId ∈ zrevrangeAll redisStateWithDangling.zset,
        kvGet redisStateWithDangling.kv (jobKey jobId) = some sampleJob
        ∧ (statusTruthy none = true → sampleJob.status = none))
    ∧ list_jobs
        (some (RedisState.mk redisStateWithDangling.kv
          (zrem redisStateWithDangling.zset "dead"))) 1 none
      = list_jobs (some redisStateWithDangling) 1 none
    ∧ (zaddDesc redisStateWithDangling.zset "new" 30).Pairwise scoreDesc := by
  have h := list_jobs_orders_filters_truncates redisStateWithDangling 1 none
  refine ⟨h.1, h.2.1 sampleJob ?_, h.2.2.1 "dead" rfl, h.2.2.2.2 "new" 30 ?_⟩
  · decide
  · simp [redisStateWithDangling, List.pairwise_cons, scoreDesc]

/-- C6: whenever the primary web search succeeds, the search phase
succeeds whatever the three secondary sub-operations do: the results are
assigned by the fixed position mapping of the idx walk — news extends
search_results, images and videos land on their own fields — and a
sub-operation that raised contributes its empty default instead, leaving
the other fields populated from their own sub-operations; fields of the
state the phase does not own are untouched. -/
theorem search_phase_isolates_secondary_failures (env : SearchEnv)
    (includeImages includeVideos includeNews : Bool) (s : PipelineState)
    (w : List SearchResult) (h : env.web = Except.ok w) :
    ∃ s2, search_phase env includeImages includeVideos includeNews s
        = Except.ok s2
      ∧ s2.search_results
          = w ++ (if includeNews then settledOr env.news else [])
      ∧ s2.images = (if includeImages then settledOr env.images else s.images)
      ∧ s2.videos = (if includeVideos then settledOr env.videos else s.videos)
      ∧ s2.query = s.query
      ∧ s2.scraped_content = s.scraped_content
      ∧ s2.analysis = s.analysis
      ∧ s2.status = s.status := by
  obtain ⟨web, news, imgs, vids⟩ := env
  simp only [SearchEnv.web] at h
  subst h
  cases includeNews <;> cases includeImages <;> cases includeVideos <;>
    cases news <;> cases imgs <;> cases vids <;>
      simp [search_phase, secondaryTasks, readNews, readImages, readVideos,
        settledOr, Except.map]

/-- Witness for C6: news raises while web, images and videos succeed; the
news contribution is empty and the other fields carry their own results. -/
theorem search_phase_isolates_secondary_failures_witness :
    ∃ s2, search_phase searchEnvNewsRaises true true true
        (PipelineState.start "q" 0) = Except.ok s2
      ∧ s2.search_results = [⟨"w", "ws", "https://w.example/1", "w.example"⟩]
      ∧ s2.images = [⟨"img", "https://i.example/1.png"⟩]
      ∧ s2.videos = [⟨"vid", "https://v.example/1"⟩] := by
  obtain ⟨s2, h1, h2, h3, h4, _⟩ :=
    search_phase_isolates_secondary_failures searchEnvNewsRaises true true true
      (PipelineState.start "q" 0) [⟨"w", "ws", "https://w.example/1", "w.example"⟩]
      rfl
  refine ⟨s2, h1, ?_, ?_, ?_⟩
  · simpa [searchEnvNewsRaises, settledOr] using h2
  · simpa [searchEnvNewsRaises, settledOr] using h3
  · simpa [searchEnvNewsRaises, settledOr] using h4

/-- C10: the scraping phase submits exactly the first
min(len(urls), max_search_results * 2) search-result links, in
search-result order; the submitted list never exceeds max_search_results *
2 entries (10 at the default of 5), and links beyond the cap are not
submitted. -/
theorem scraping_phase_caps_url_count (m : Nat)
    (scrape : List String → List ScrapedContent) (s : PipelineState) :
    urlsToScrape m s = (s.search_results.map (fun r => r.link)).take (m * 2)
    ∧ (urlsToScrape m s).length ≤ m * 2
    ∧ (urlsToScrape maxSearchResultsDefault s).length ≤ 10
    ∧ scraping_phase m scrape s
        = (if s.search_results.isEmpty then s
           else { s with scraped_content := scrape (urlsToScrape m s) }) := by
  have key : ∀ (k : Nat) (l : List String), l.take (min l.length k) = l.take k := by
    intro k l
    rw [Nat.min_comm, ← List.take_take, List.take_length]
  refine ⟨key (m * 2) _, ?_, ?_, ?_⟩
  · rw [urlsToScrape, key (m * 2) _, List.length_take]
    omega
  · rw [urlsToScrape, key (maxSearchResultsDefault * 2) _, List.length_take]
    simp only [maxSearchResultsDefault]
    omega
  · by_cases he : s.search_results = []
    · simp [scraping_phase, he]
    · have hmap : (s.search_results.map (fun r => r.link)).isEmpty = false := by
        simp [List.isEmpty_iff, he]
      have hne : s.search_results.isEmpty = false := by
        simp [List.isEmpty_iff, he]
      simp [scraping_phase, hmap, hne]

/-- C1: whenever an exception escapes any phase of the try block, run
catches it at its single top-level handler and still returns: the returned
PipelineResult carries the state as mutated so far with status set to
"failed", an empty VisualizationData, no HTML report, and an elapsed
processing time computed from the start time. -/
theorem run_failure_returns_failed_result (ph : Phases) (query : String)
    (t0 : Nat) (e : PyExc) (ctxF : RunCtx)
    (h : runTry ph (initialCtx query t0) = Except.error (e, ctxF)) :
    (run ph query t0).1.state.status = "failed"
    ∧ (run ph query t0).1.state.query = ctxF.state.query
    ∧ (run ph query t0).1.state.search_results = ctxF.state.search_results
    ∧ (run ph query t0).1.state.images = ctxF.state.images
    ∧ (run ph query t0).1.state.videos = ctxF.state.videos
    ∧ (run ph query t0).1.state.scraped_content = ctxF.state.scraped_content
    ∧ (run ph query t0).1.state.analysis = ctxF.state.analysis
    ∧ (run ph query t0).1.visualization = VisualizationData.empty
    ∧ (run ph query t0).1.html_report = none
    ∧ (run ph query t0).1.processing_time = some (ctxF.clock + 1 - t0) := by
  simp [run, h, RunCtx.updStatus, PipelineState.update_status]

/-- Witness for C1: with the search collaborator stubbed to raise after
recording one result, run still returns a failed result carrying that
result, an empty visualization and no report. -/
theorem run_failure_returns_failed_result_witness :
    (run phasesSearchRaises "q" 0).1.state.status = "failed"
    ∧ (run phasesSearchRaises "q" 0).1.state.search_results
        = [⟨"t", "sn", "https://kept.example/a", "kept.example"⟩]
    ∧ (run phasesSearchRaises "q" 0).1.visualization = VisualizationData.empty
    ∧ (run phasesSearchRaises "q" 0).1.html_report = none
    ∧ (run phasesSearchRaises "q" 0).1.processing_time = some 4 := by
  have h : runTry phasesSearchRaises (initialCtx "q" 0)
      = Except.error (PyExc.runtimeError "Search failed",
          RunCtx.mk
            (PipelineState.mk "q"
              [⟨"t", "sn", "https://kept.example/a", "kept.example"⟩]
              [] [] [] none "searching" 1 (some 2))
            [("searching", 2)] 3) := rfl
  obtain ⟨h1, _, h3, _, _, _, _, h8, h9, h10⟩ :=
    run_failure_returns_failed_result phasesSearchRaises "q" 0
      (PyExc.runtimeError "Search failed")
      (RunCtx.mk
        (PipelineState.mk "q"
          [⟨"t", "sn", "https://kept.example/a", "kept.example"⟩]
          [] [] [] none "searching" 1 (some 2))
        [("searching", 2)] 3) h
  exact ⟨h1, h3, h8, h9, h10⟩

/-- A phase that returns normally leaves the trace and clock unchanged:
phases do not call update_status themselves. -/
theorem phaseStep_ok_shape (f : PipelineState → PipelineState × Option PyExc)
    (ctx c : RunCtx) (h : phaseStep f ctx = Except.ok c) :
    c.trace = ctx.trace ∧ c.clock = ctx.clock := by
  rcases hf : f ctx.state with ⟨s, oe⟩
  unfold phaseStep at h
  rw [hf] at h
  cases oe with
  | none =>
    simp only [Except.ok.injEq] at h
    subst h
    exact ⟨rfl, rfl⟩
  | some e => simp at h

/-- A phase that raises also leaves the trace and clock unchanged. -/
theorem phaseStep_error_shape
    (f : PipelineState → PipelineState × Option PyExc)
    (ctx : RunCtx) (e : PyExc) (c : RunCtx)
    (h : phaseStep f ctx = Except.error (e, c)) :
    c.trace = ctx.trace ∧ c.clock = ctx.clock := by
  rcases hf : f ctx.state with ⟨s, oe⟩
  unfold phaseStep at h
  rw [hf] at h
  cases oe with
  | none => simp at h
  | some e2 =>
    simp only [Except.error.injEq, Prod.mk.injEq] at h
    rcases h with ⟨he, hc⟩
    subst hc
    exact ⟨rfl, rfl⟩

/-- Shape of the try block: it either completes having recorded the five
intermediate status updates at five consecutive clock ticks, or aborts
after recording the first j of them, j depending on which phase raised. -/
theorem runTry_trace_shape (ph : Phases) (ctx0 : RunCtx) :
    (∃ c v rp, runTry ph ctx0 = Except.ok (c, v, rp)
      ∧ c.trace = ctx0.trace
          ++ [("scraping", ctx0.clock), ("storing", ctx0.clock + 1),
              ("analyzing", ctx0.clock + 2), ("visualizing", ctx0.clock + 3),
              ("generating_report", ctx0.clock + 4)]
      ∧ c.clock = ctx0.clock + 5)
    ∨ (∃ e c, runTry ph ctx0 = Except.error (e, c)
      ∧ ((c.trace = ctx0.trace ∧ c.clock = ctx0.clock)
        ∨ (c.trace = ctx0.trace ++ [("scraping", ctx0.clock)]
            ∧ c.clock = ctx0.clock + 1)
        ∨ (c.trace = ctx0.trace
              ++ [("scraping", ctx0.clock), ("storing", ctx0.clock + 1)]
            ∧ c.clock = ctx0.clock + 2)
        ∨ (c.trace = ctx0.trace
              ++ [("scraping", ctx0.clock), ("storing", ctx0.clock + 1),
                  ("analyzing", ctx0.clock + 2)]
            ∧ c.clock = ctx0.clock + 3)
        ∨ (c.trace = ctx0.trace
              ++ [("scraping", ctx0.clock), ("storing", ctx0.clock + 1),
                  ("analyzing", ctx0.clock + 2), ("visualizing", ctx0.clock + 3)]
            ∧ c.clock = ctx0.clock + 4)
        ∨ (c.trace = ctx0.trace
              ++ [("scraping", ctx0.clock), ("storing", ctx0.clock + 1),
                  ("analyzing", ctx0.clock + 2), ("visualizing", ctx0.clock + 3),
                  ("generating_report", ctx0.clock + 4)]
            ∧ c.clock = ctx0.clock + 5))) := by
  cases h1 : phaseStep ph.searchPhase ctx0 with
  | error err =>
    rcases err with ⟨e, c⟩
    obtain ⟨ht, hc⟩ := phaseStep_error_shape _ _ _ _ h1
    right
    exact ⟨e, c, by simp [runTry, h1], Or.inl ⟨ht, hc⟩⟩
  | ok c1 =>
  obtain ⟨ht1, hc1⟩ := phaseStep_ok_shape _ _ _ h1
  cases h2 : phaseStep ph.scrapingPhase (c1.updStatus "scraping") with
  | error err =>
    rcases err with ⟨e, c⟩
    obtain ⟨ht, hc⟩ := phaseStep_error_shape _ _ _ _ h2
    right
    refine ⟨e, c, by simp [runTry, h1, h2], Or.inr (Or.inl ⟨?_, ?_⟩)⟩
    · rw [ht]
      simp [RunCtx.updStatus, ht1, hc1]
    · rw [hc]
      simp [RunCtx.updStatus, hc1]
  | ok c2 =>
  obtain ⟨ht2, hc2⟩ := phaseStep_ok_shape _ _ _ h2
  have ht2x : c2.trace = ctx0.trace ++ [("scraping", ctx0.clock)] := by
    rw [ht2]; simp [RunCtx.updStatus, ht1, hc1]
  have hc2x : c2.clock = ctx0.clock + 1 := by
    rw [hc2]; simp [RunCtx.updStatus, hc1]
  cases h3 : phaseStep ph.storagePhase (c2.updStatus "storing") with
  | error err =>
    rcases err with ⟨e, c⟩
    obtain ⟨ht, hc⟩ := phaseStep_error_shape _ _ _ _ h3
    right
    refine ⟨e, c, by simp [runTry, h1, h2, h3],
      Or.inr (Or.inr (Or.inl ⟨?_, ?_⟩))⟩
    · rw [ht]
      simp [RunCtx.updStatus, ht2x, hc2x]
    · rw [hc]
      simp [RunCtx.updStatus, hc2x]
  | ok c3 =>
  obtain ⟨ht3, hc3⟩ := phaseStep_ok_shape _ _ _ h3
  have ht3x : c3.trace = ctx0.trace
      ++ [("scraping", ctx0.clock), ("storing", ctx0.clock + 1)] := by
    rw [ht3]; simp [RunCtx.updStatus, ht2x, hc2x]
  have hc3x : c3.clock = ctx0.clock + 2 := by
    rw [hc3]; simp [RunCtx.updStatus, hc2x]
  cases h4 : phaseStep ph.analysisPhase (c3.updStatus "analyzing") with
  | error err =>
    rcases err with ⟨e, c⟩
    obtain ⟨ht, hc⟩ := phaseStep_error_shape _ _ _ _ h4
    right
    refine ⟨e, c, by simp [runTry, h1, h2, h3, h4],
      Or.inr (Or.inr (Or.inr (Or.inl ⟨?_, ?_⟩)))⟩
    · rw [ht]
      simp [RunCtx.updStatus, ht3x, hc3x]
    · rw [hc]
      simp [RunCtx.updStatus, hc3x]
  | ok c4 =>
  obtain ⟨ht4, hc4⟩ := phaseStep_ok_shape _ _ _ h4
  have ht4x : c4.trace = ctx0.trace
      ++ [("scraping", ctx0.clock), ("storing", ctx0.clock + 1),
          ("analyzing", ctx0.clock + 2)] := by
    rw [ht4]; simp [RunCtx.updStatus, ht3x, hc3x]
  have hc4x : c4.clock = ctx0.clock + 3 := by
    rw [hc4]; simp [RunCtx.updStatus, hc3x]
  rcases h5 : ph.vizPhase ((c4.updStatus "visualizing").state) with ⟨s5, ex5⟩
  cases ex5 with
  | error e5 =>
    right
    refine ⟨e5,
      RunCtx.mk s5 (c4.updStatus "visualizing").trace
        (c4.updStatus "visualizing").clock,
      by simp [runTry, h1, h2, h3, h4, h5],
      Or.inr (Or.inr (Or.inr (Or.inr (Or.inl ⟨?_, ?_⟩))))⟩
    · simp [RunCtx.updStatus, ht4x, hc4x]
    · simp [RunCtx.updStatus, hc4x]
  | ok viz5 =>
  rcases h6 : ph.reportPhase
      (((RunCtx.mk s5 (c4.updStatus "visualizing").trace
        (c4.updStatus "visualizing").clock).updStatus "generating_report").state)
      viz5 with ⟨s6, ex6⟩
  cases ex6 with
  | error e6 =>
    right
    refine ⟨e6,
      RunCtx.mk s6
        (((RunCtx.mk s5 (c4.updStatus "visualizing").trace
          (c4.updStatus "visualizing").clock).updStatus "generating_report").trace)
        (((RunCtx.mk s5 (c4.updStatus "visualizing").trace
          (c4.updStatus "visualizing").clock).updStatus "generating_report").clock),
      by simp [runTry, h1, h2, h3, h4, h5, h6],
      Or.inr (Or.inr (Or.inr (Or.inr (Or.inr ⟨?_, ?_⟩))))⟩
    · simp [RunCtx.updStatus, ht4x, hc4x]
    · simp [RunCtx.updStatus, hc4x]
  | ok rpt6 =>
    left
    refine ⟨RunCtx.mk s6
        (((RunCtx.mk s5 (c4.updStatus "visualizing").trace
          (c4.updStatus "visualizing").clock).updStatus "generating_report").trace)
        (((RunCtx.mk s5 (c4.updStatus "visualizing").trace
          (c4.updStatus "visualizing").clock).updStatus "generating_report").clock),
      viz5, rpt6, by simp [runTry, h1, h2, h3, h4, h5, h6], ?_, ?_⟩
    · simp [RunCtx.updStatus, ht4x, hc4x]
    · simp [RunCtx.updStatus, hc4x]

/-- C8: along every run, the sequence of statuses set by update_status —
starting from the initial "initialized" — only moves forward through
searching, scraping, storing, analyzing, visualizing, generating_report,
completed, or jumps directly to failed; every update_status call stamps a
strictly fresher timestamp, and the returned state carries the status and
updated_at of the last update. -/
theorem run_status_moves_forward (ph : Phases) (query : String) (t0 : Nat) :
    List.Chain' (fun a b => statusForward a b = true)
      ("initialized" :: ((run ph query t0).2.map Prod.fst))
    ∧ List.Chain' (fun a b : Nat => a < b) ((run ph query t0).2.map Prod.snd)
    ∧ (∃ p, ((run ph query t0).2).getLast? = some p
        ∧ (run ph query t0).1.state.status = p.1
        ∧ (run ph query t0).1.state.updated_at = some p.2) := by
  have hini : (initialCtx query t0).trace = [("searching", t0 + 2)] := rfl
  have hinic : (initialCtx query t0).clock = t0 + 3 := rfl
  rcases runTry_trace_shape ph (initialCtx query t0) with
    ⟨c, v, rp, heq, ht, hc⟩ | ⟨e, c, heq, hcase⟩
  · simp only [hini, hinic] at ht hc
    simp only [run, heq, RunCtx.updStatus, PipelineState.update_status]
    refine ⟨?_, ?_, ⟨("completed", c.clock), List.getLast?_concat _, rfl, rfl⟩⟩
    · rw [ht]
      simp only [List.map_append, List.map_cons, List.map_nil,
        List.cons_append, List.nil_append, List.append_nil,
        List.chain'_cons, List.chain'_singleton, and_true]
      decide
    · rw [ht, hc]
      simp only [List.map_append, List.map_cons, List.map_nil,
        List.cons_append, List.nil_append, List.append_nil,
        List.chain'_cons, List.chain'_singleton, and_true]
      omega
  · rcases hcase with ⟨ht, hc⟩ | ⟨ht, hc⟩ | ⟨ht, hc⟩ | ⟨ht, hc⟩ | ⟨ht, hc⟩ |
      ⟨ht, hc⟩ <;>
    · simp only [hini, hinic] at ht hc
      simp only [run, heq, RunCtx.updStatus, PipelineState.update_status]
      refine ⟨?_, ?_, ⟨("failed", c.clock), List.getLast?_concat _, rfl, rfl⟩⟩
      · rw [ht]
        simp only [List.map_append, List.map_cons, List.map_nil,
          List.cons_append, List.nil_append, List.append_nil,
          List.chain'_cons, List.chain'_singleton, and_true]
        decide
      · rw [ht, hc]
        simp only [List.map_append, List.map_cons, List.map_nil,
          List.cons_append, List.nil_append, List.append_nil,
          List.chain'_cons, List.chain'_singleton, and_true]
        omega

end CRPipeline
